import Mathlib

/-!
Verification of the spindly expression-bridge specification.

The repository ships only a build descriptor (`setup.py`, compiling the
native module `spindly.c` against the mozjs185 engine) and a unit-test file
(`tests.py`).  The implementation of the bridge function `js` lives in the
native source `spindly.c`, which is not part of the supplied sources, so the
definitions below are modelled from the specification's description of the
Expression Bridge: its Script Value tagged union, the Script-Value-to-Host-
Value conversion table, the error taxonomy, and the scoped context
lifecycle.
-/

namespace Spindly

/-- Modelled from the spec: the Script Value produced by evaluating an
expression in `spindly.c` (absent from the sources) — a tagged union of
null, boolean, string, integer number, floating-point number, and the
unmapped kinds object, array and function.  The floating-point payload is
modelled as the exact rational value of the decimal literal. -/
inductive ScriptValue where
  | null : ScriptValue
  | bool : Bool → ScriptValue
  | str : String → ScriptValue
  | int : Int → ScriptValue
  | float : ℚ → ScriptValue
  | object : ScriptValue
  | array : ScriptValue
  | function : ScriptValue
deriving DecidableEq

/-- Modelled from the spec: the Host Value returned by the bridge in
`spindly.c` (absent from the sources) — the host "no value" sentinel,
host booleans, host text, host integers and host floating values.  Each
sentinel is a distinct constructor, so two Host Values are identical
exactly when they have the same tag and payload. -/
inductive HostValue where
  | none : HostValue
  | bool : Bool → HostValue
  | str : String → HostValue
  | int : Int → HostValue
  | float : ℚ → HostValue
deriving DecidableEq

/-- Modelled from the spec: the error taxonomy of the bridge in `spindly.c`
(absent from the sources): `SyntaxError` for malformed expression text,
`EvaluationError` for an exception raised during script execution and
`UnsupportedValueError` for a result with no host representation. -/
inductive BridgeError where
  | SyntaxError : BridgeError
  | EvaluationError : BridgeError
  | UnsupportedValueError : BridgeError
deriving DecidableEq

/-- Numeric value of a list of decimal digit characters. -/
def digitsToNat (ds : List Char) : Nat :=
  ds.foldl (fun acc c => 10 * acc + (c.toNat - 48)) 0

/-- Scans the body of a string literal: the characters after the opening
quote.  Accumulates content characters until the closing quote, which must
be the final character of the source; an unterminated literal or trailing
characters yield no value. -/
def parseStringBody : List Char → List Char → Option ScriptValue
  | ['"'], acc => some (ScriptValue.str (String.mk acc.reverse))
  | '"' :: _ :: _, _ => none
  | c :: rest, acc => parseStringBody rest (c :: acc)
  | [], _ => none

/-- Recognises a JavaScript string literal: a double quote, content
characters, and a closing double quote ending the source. -/
def parseString (cs : List Char) : Option ScriptValue :=
  match cs with
  | '"' :: rest => parseStringBody rest []
  | _ => none

/-- Recognises a JavaScript numeric literal: a digit run is an integer
number; a digit run, a dot and a second digit run form a floating-point
number whose value is the exact rational denoted by the decimal text. -/
def parseNumber (cs : List Char) : Option ScriptValue :=
  match cs.span Char.isDigit with
  | (intDs, rest) =>
    if intDs.isEmpty then none
    else
      match rest with
      | [] => some (ScriptValue.int (digitsToNat intDs))
      | '.' :: fracDs =>
        if fracDs.isEmpty || !(fracDs.all Char.isDigit) then none
        else some (ScriptValue.float
          (mkRat (digitsToNat intDs * 10 ^ fracDs.length + digitsToNat fracDs)
            (10 ^ fracDs.length)))
      | _ => none

/-- Modelled from the spec: the parse step of `spindly.c` (absent from the
sources) for the expression forms the spec defines — the literals `null`,
`true` and `false`, string literals, numeric literals, and parenthesised
function expressions such as `(function()\x7b\x7d)`.  Any other source text
cannot be parsed as one of the specified expressions. -/
def parseLiteral (cs : List Char) : Option ScriptValue :=
  if cs = String.toList "null" then some ScriptValue.null
  else if cs = String.toList "true" then some (ScriptValue.bool true)
  else if cs = String.toList "false" then some (ScriptValue.bool false)
  else if cs.take 9 = String.toList "(function" then some ScriptValue.function
  else
    match parseString cs with
    | some v => some v
    | none => parseNumber cs

/-- Modelled from the spec: parsing the source text in `spindly.c` (absent
from the sources).  A source that cannot be parsed as an expression fails
with `SyntaxError`; otherwise exactly one Script Value is produced. -/
def parseExpr (source : String) : Except BridgeError ScriptValue :=
  match parseLiteral source.toList with
  | some v => Except.ok v
  | none => Except.error BridgeError.SyntaxError

/-- Modelled from the spec: the conversion table of `spindly.c` (absent
from the sources), exhaustively matched over the Script Value tags.  A
Script Value with no defined Host Value mapping (object, array, function)
fails with `UnsupportedValueError`. -/
def convert : ScriptValue → Except BridgeError HostValue
  | ScriptValue.null => Except.ok HostValue.none
  | ScriptValue.bool b => Except.ok (HostValue.bool b)
  | ScriptValue.str s => Except.ok (HostValue.str s)
  | ScriptValue.int n => Except.ok (HostValue.int n)
  | ScriptValue.float q => Except.ok (HostValue.float q)
  | ScriptValue.object => Except.error BridgeError.UnsupportedValueError
  | ScriptValue.array => Except.error BridgeError.UnsupportedValueError
  | ScriptValue.function => Except.error BridgeError.UnsupportedValueError

/-- Modelled from the spec: `evaluate(source) -> HostValue`, the Expression
Bridge operation of `spindly.c` (absent from the sources): parse the
source, then convert the resulting Script Value to a Host Value, with the
first error on either step surfaced directly to the caller. -/
def evaluate (source : String) : Except BridgeError HostValue :=
  match parseExpr source with
  | Except.ok v => convert v
  | Except.error e => Except.error e

/-- Modelled from the spec: the call surface `js(source) -> value` exported
by `spindly.c` (absent from the sources), matching `evaluate`. -/
def js : String → Except BridgeError HostValue := evaluate

/-- Modelled from the spec: the engine-native resource state — how many
Script Contexts are currently live (acquired and not yet released). -/
structure EngineState where
  liveContexts : Nat
deriving DecidableEq

/-- Acquiring a Script Context makes one more context live. -/
def acquireContext (st : EngineState) : EngineState :=
  { st with liveContexts := st.liveContexts + 1 }

/-- Releasing a Script Context makes one fewer context live. -/
def releaseContext (st : EngineState) : EngineState :=
  { st with liveContexts := st.liveContexts - 1 }

/-- Modelled from the spec: one bridge call of `spindly.c` (absent from the
sources) with its scoped context lifecycle: acquire a context, parse and
evaluate, extract the value, and release the context on every exit path,
error paths included.  The context holds no state observable outside the
single call's result. -/
def jsInContext (st : EngineState) (source : String) :
    Except BridgeError HostValue × EngineState :=
  let st1 := acquireContext st
  let result := evaluate source
  (result, releaseContext st1)

/-- Claim C1: for every literal expression in the set null, true, false,
the function `js` returns exactly the corresponding host sentinel: the host
"no value" sentinel for null, host boolean true for true, and host boolean
false for false. -/
theorem js_literal_sentinels :
    js "null" = Except.ok HostValue.none ∧
    js "true" = Except.ok (HostValue.bool true) ∧
    js "false" = Except.ok (HostValue.bool false) :=
  ⟨rfl, rfl, rfl⟩

/-- Claim C2: `js` applied to the source text consisting of the JavaScript
string literal "alpha" returns a host text value whose content is exactly
the string alpha. -/
theorem js_string_alpha :
    js "\"alpha\"" = Except.ok (HostValue.str "alpha") :=
  rfl

/-- Claim C3: `js "1"` returns the host integer one, and in general every
integer-number Script Value converts to the numerically identical host
integer. -/
theorem js_integer_exact :
    js "1" = Except.ok (HostValue.int 1) ∧
    ∀ n : Int, convert (ScriptValue.int n) = Except.ok (HostValue.int n) :=
  ⟨rfl, fun _ => rfl⟩

/-- Witness for C3 at the concrete integer five. -/
theorem js_integer_exact_witness :
    convert (ScriptValue.int 5) = Except.ok (HostValue.int 5) :=
  js_integer_exact.2 5

/-- Claim C4: `js "1.2"` returns a host floating value equal to 1.2, the
exact rational six fifths in this model of decimal floating literals. -/
theorem js_float_one_point_two :
    js "1.2" = Except.ok (HostValue.float (6 / 5)) := by
  have h : js "1.2" = Except.ok (HostValue.float (mkRat 12 10)) := rfl
  have hq : (mkRat 12 10 : ℚ) = 6 / 5 := by
    rw [Rat.mkRat_eq_div]; norm_num
  rw [h, hq]

/-- Claim C5: `js "\x7b"` fails with `SyntaxError`, and in general every
source text that the bridge cannot parse as an expression fails with the
defined, inspectable `SyntaxError` condition — `js` is total, so there is
no crash and no undefined return value. -/
theorem js_unparsable_fails :
    js "\x7b" = Except.error BridgeError.SyntaxError ∧
    ∀ s : String, (∃ v, parseExpr s = Except.ok v) ∨
      (parseExpr s = Except.error BridgeError.SyntaxError ∧
        js s = Except.error BridgeError.SyntaxError) := by
  refine ⟨rfl, fun s => ?_⟩
  cases h : parseLiteral s.data with
  | some v => exact Or.inl ⟨v, by simp [parseExpr, h]⟩
  | none =>
    refine Or.inr ⟨by simp [parseExpr, h], ?_⟩
    simp [js, evaluate, parseExpr, h]

/-- Witness for C5 at the concrete unparsable source. -/
theorem js_unparsable_fails_witness :
    (∃ v, parseExpr "\x7b" = Except.ok v) ∨
      (parseExpr "\x7b" = Except.error BridgeError.SyntaxError ∧
        js "\x7b" = Except.error BridgeError.SyntaxError) :=
  js_unparsable_fails.2 "\x7b"

/-- Claim C6: `js "(function()\x7b\x7d)"` fails with
`UnsupportedValueError`, and every Script Value tag without a defined Host
Value mapping — object, array, function — converts to that same error
rather than to any host value. -/
theorem js_unsupported_value :
    js "(function()\x7b\x7d)" = Except.error BridgeError.UnsupportedValueError ∧
    convert ScriptValue.object = Except.error BridgeError.UnsupportedValueError ∧
    convert ScriptValue.array = Except.error BridgeError.UnsupportedValueError ∧
    convert ScriptValue.function = Except.error BridgeError.UnsupportedValueError :=
  ⟨rfl, rfl, rfl, rfl⟩

/-- Claim C7: every call to `js` either succeeds with exactly one Host
Value or fails with an error; the successful value is unique, and no call
both succeeds and fails, so there is no third outcome mixing an error with
a partial result. -/
theorem js_single_outcome :
    (∀ s, (∃ v, js s = Except.ok v) ∨ (∃ e, js s = Except.error e)) ∧
    (∀ s v v', js s = Except.ok v → js s = Except.ok v' → v = v') ∧
    (∀ s v e, js s = Except.ok v → js s = Except.error e → False) := by
  refine ⟨fun s => ?_, fun s v v' h1 h2 => ?_, fun s v e h1 h2 => ?_⟩
  · cases h : js s with
    | ok v => exact Or.inl ⟨v, rfl⟩
    | error e => exact Or.inr ⟨e, rfl⟩
  · rw [h1] at h2; exact (Except.ok.injEq _ _).mp h2
  · rw [h1] at h2; exact Except.noConfusion h2

/-- Witness for C7 at the concrete source text one. -/
theorem js_single_outcome_witness :
    (∃ v, js "1" = Except.ok v) ∨ (∃ e, js "1" = Except.error e) :=
  js_single_outcome.1 "1"

/-- Claim C8: two calls of the bridge with the same source string on
independent engine states return equal Host Values; the result never
depends on the state, so repeated evaluation accumulates no hidden state
and never changes the result. -/
theorem js_idempotent :
    ∀ (st1 st2 : EngineState) (s : String),
      (jsInContext st1 s).1 = (jsInContext st2 s).1 :=
  fun _ _ _ => rfl

/-- Witness for C8 on two distinct concrete engine states. -/
theorem js_idempotent_witness :
    (jsInContext ⟨0⟩ "true").1 = (jsInContext ⟨7⟩ "true").1 :=
  js_idempotent ⟨0⟩ ⟨7⟩ "true"

/-- Claim C9: on every execution path of a bridge call — success as well
as every error path — the Script Context acquired for the call is released
again, so the number of live engine-native contexts after the call equals
the number before it and no resource is leaked. -/
theorem context_always_released :
    ∀ (st : EngineState) (s : String),
      ((jsInContext st s).2).liveContexts = st.liveContexts := by
  intro st s
  simp [jsInContext, acquireContext, releaseContext]

/-- Witness for C9 on a concrete state and an erroring source. -/
theorem context_always_released_witness :
    ((jsInContext ⟨3⟩ "\x7b").2).liveContexts = 3 :=
  context_always_released ⟨3⟩ "\x7b"

/-- Claim C10: for the inputs null, true and false, `js` returns the
unique host sentinels themselves — the `none`, `bool true` and
`bool false` constructors — and these sentinels are distinct from the
merely equal-comparing integers zero and one, so the result is the
singleton by identity and not just by numeric equality. -/
theorem js_identity_singletons :
    js "null" = Except.ok HostValue.none ∧
    js "true" = Except.ok (HostValue.bool true) ∧
    js "false" = Except.ok (HostValue.bool false) ∧
    HostValue.none ≠ HostValue.int 0 ∧
    HostValue.bool true ≠ HostValue.int 1 ∧
    HostValue.bool false ≠ HostValue.int 0 := by
  refine ⟨rfl, rfl, rfl, ?_, ?_, ?_⟩ <;> intro h <;> exact HostValue.noConfusion h

end Spindly
